import Mathlib

/-!
Shallow embedding of the task-control system (SistemaControleTarefas_SCM):
`src/tarefa.py` (the `Tarefa` record), `src/auditoria.py` (the append-only
audit log) and `src/repositorio.py` (the checksummed repository).

Modelling conventions, stated once:
* Wall-clock instants (`datetime.now()`) are modelled as `Nat` ticks supplied
  as an explicit `agora` parameter; `datetime.isoformat` is modelled by an
  injective, order-preserving textual encoding with an explicit inverse
  (`isoformat` / `fromisoformat`), standing in for the lossless ISO-8601 form.
* `uuid.uuid4()` is an explicit `freshUuid : String` parameter.
* Python exceptions are `Except Erro`; each distinct `raise` site of the
  source has its own `Erro` constructor.  Every repository operation returns
  its result together with the post-state; an exception leaves the state
  unchanged, exactly as in the source, where the raise happens before any
  file write.
* The composition `sha256(json.dumps(content, sort_keys=True))` of
  `_calcular_checksum` is modelled as an explicit function parameter
  `chk : SemChecksum → String` applied to the checksum-free document
  (the dict comprehension dropping the `checksum` key is `dadosSemChecksum`);
  collision-freeness of the digest is an explicit hypothesis where needed.
* `Tarefa.atualizar(**kwargs)` receives an ordered list of keyword
  arguments.  An argument naming one of the nine instance attributes carries
  a value of that attribute's type; any other name fails the `hasattr` test
  of the source and is skipped (class attributes and methods are not
  modelled as assignable targets).
-/

namespace SCM

/-- Attribute values of a task object (strings and integers), as they appear
in audit change-sets. -/
inductive Valor where
  | s (v : String)
  | n (v : Nat)
deriving DecidableEq, Repr

/-- Error taxonomy: one constructor per distinct `raise ValueError` site of
the source. -/
inductive Erro where
  | statusInvalido (v : String)
  | prioridadeInvalida (v : String)
  | integridade
  | idDuplicado (id : String)
deriving DecidableEq, Repr

/-- Validation errors are the two enum-rejection raise sites of `tarefa.py`. -/
def Erro.eValidacao : Erro → Bool
  | .statusInvalido _ => true
  | .prioridadeInvalida _ => true
  | _ => false

/-- `Tarefa.STATUS_VALIDOS`. -/
def STATUS_VALIDOS : List String := ["PENDENTE", "EM_ANDAMENTO", "CONCLUIDA", "CANCELADA"]

/-- `Tarefa.PRIORIDADES_VALIDAS`. -/
def PRIORIDADES_VALIDAS : List String := ["BAIXA", "MEDIA", "ALTA", "CRITICA"]

/-- Model of `datetime.isoformat`: an injective, order-preserving textual
encoding of instants (instants are `Nat` ticks). -/
def isoformat (t : Nat) : String := String.mk (List.replicate t 'i')

/-- Model of `datetime.fromisoformat`, the exact inverse of `isoformat`. -/
def fromisoformat (s : String) : Nat := s.data.length

/-- The nine instance attributes set by `Tarefa.__init__`. -/
structure Tarefa where
  id : String
  titulo : String
  descricao : String
  responsavel : String
  status : String
  prioridade : String
  versao : Nat
  criado_em : Nat
  atualizado_em : Nat
deriving DecidableEq, Repr

/-- `Tarefa.__init__`: `id or str(uuid.uuid4())` (a falsy — empty — id is
replaced by a fresh uuid), `versao = 1`, `criado_em = atualizado_em = now`,
then status and priority validated against their enums, in that order. -/
def Tarefa.novo (freshUuid : String) (agora : Nat)
    (titulo descricao responsavel status prioridade : String)
    (id : Option String) : Except Erro Tarefa :=
  let idv : String :=
    match id with
    | some s => if s == "" then freshUuid else s
    | none => freshUuid
  if STATUS_VALIDOS.contains status then
    if PRIORIDADES_VALIDAS.contains prioridade then
      .ok { id := idv, titulo := titulo, descricao := descricao,
            responsavel := responsavel, status := status, prioridade := prioridade,
            versao := 1, criado_em := agora, atualizado_em := agora }
    else .error (.prioridadeInvalida prioridade)
  else .error (.statusInvalido status)

/-- One keyword argument to `Tarefa.atualizar`.  The first nine constructors
are the assignable instance attributes; `desconhecido` is any other name,
which fails `hasattr` and is skipped. -/
inductive Kwarg where
  | id (v : String)
  | titulo (v : String)
  | descricao (v : String)
  | responsavel (v : String)
  | status (v : String)
  | prioridade (v : String)
  | versao (v : Nat)
  | criado_em (v : Nat)
  | atualizado_em (v : Nat)
  | desconhecido (nome : String) (v : Valor)
deriving DecidableEq, Repr

/-- One entry of the `mudancas` change-set: field name, previous value, new
value. -/
abbrev Item := String × Valor × Valor

/-- The dictionary returned by `Tarefa.atualizar`: the per-field change-set
plus, when non-empty, the `versao` and `atualizado_em` keys added at the end. -/
structure Mudancas where
  itens : List Item
  versaoNova : Option Nat
  atualizadoEmNova : Option String
deriving DecidableEq, Repr

/-- One iteration of the `for campo, novo_valor in kwargs.items()` loop of
`Tarefa.atualizar`: skip unknown attributes, validate status/priority values
before any comparison, record and apply the assignment when the value
differs. -/
def Tarefa.passo (t : Tarefa) (acc : List Item) : Kwarg → Except Erro (Tarefa × List Item)
  | .id v =>
    if t.id = v then .ok (t, acc)
    else .ok ({ t with id := v }, acc ++ [("id", .s t.id, .s v)])
  | .titulo v =>
    if t.titulo = v then .ok (t, acc)
    else .ok ({ t with titulo := v }, acc ++ [("titulo", .s t.titulo, .s v)])
  | .descricao v =>
    if t.descricao = v then .ok (t, acc)
    else .ok ({ t with descricao := v }, acc ++ [("descricao", .s t.descricao, .s v)])
  | .responsavel v =>
    if t.responsavel = v then .ok (t, acc)
    else .ok ({ t with responsavel := v }, acc ++ [("responsavel", .s t.responsavel, .s v)])
  | .status v =>
    if STATUS_VALIDOS.contains v then
      if t.status = v then .ok (t, acc)
      else .ok ({ t with status := v }, acc ++ [("status", .s t.status, .s v)])
    else .error (.statusInvalido v)
  | .prioridade v =>
    if PRIORIDADES_VALIDAS.contains v then
      if t.prioridade = v then .ok (t, acc)
      else .ok ({ t with prioridade := v }, acc ++ [("prioridade", .s t.prioridade, .s v)])
    else .error (.prioridadeInvalida v)
  | .versao v =>
    if t.versao = v then .ok (t, acc)
    else .ok ({ t with versao := v }, acc ++ [("versao", .n t.versao, .n v)])
  | .criado_em v =>
    if t.criado_em = v then .ok (t, acc)
    else .ok ({ t with criado_em := v }, acc ++ [("criado_em", .n t.criado_em, .n v)])
  | .atualizado_em v =>
    if t.atualizado_em = v then .ok (t, acc)
    else .ok ({ t with atualizado_em := v }, acc ++ [("atualizado_em", .n t.atualizado_em, .n v)])
  | .desconhecido _ _ => .ok (t, acc)

/-- The whole loop of `Tarefa.atualizar`.  On an exception the result carries
the object as already mutated by the earlier iterations, exactly as the
Python object is left when the raise escapes the loop. -/
def Tarefa.atualizarGo (t : Tarefa) (acc : List Item) :
    List Kwarg → Except Erro (List Item) × Tarefa
  | [] => (.ok acc, t)
  | k :: ks =>
    match Tarefa.passo t acc k with
    | .error e => (.error e, t)
    | .ok (t2, acc2) => Tarefa.atualizarGo t2 acc2 ks

/-- `Tarefa.atualizar`: run the loop; if the change-set is non-empty,
increment `versao`, set `atualizado_em = now` and add both to the returned
dictionary. -/
def Tarefa.atualizar (t : Tarefa) (agora : Nat) (kwargs : List Kwarg) :
    Except Erro Mudancas × Tarefa :=
  match Tarefa.atualizarGo t [] kwargs with
  | (.error e, t2) => (.error e, t2)
  | (.ok itens, t2) =>
    if itens.isEmpty then
      (.ok { itens := [], versaoNova := none, atualizadoEmNova := none }, t2)
    else
      let t3 := { t2 with versao := t2.versao + 1, atualizado_em := agora }
      (.ok { itens := itens, versaoNova := some t3.versao,
             atualizadoEmNova := some (isoformat agora) }, t3)

/-- The serialized record: the dictionary produced by `Tarefa.to_dict`
(timestamps in their textual form). -/
structure TarefaDict where
  id : String
  titulo : String
  descricao : String
  status : String
  prioridade : String
  responsavel : String
  versao : Nat
  criado_em : String
  atualizado_em : String
deriving DecidableEq, Repr

/-- `Tarefa.to_dict`. -/
def Tarefa.to_dict (t : Tarefa) : TarefaDict :=
  { id := t.id, titulo := t.titulo, descricao := t.descricao,
    status := t.status, prioridade := t.prioridade, responsavel := t.responsavel,
    versao := t.versao, criado_em := isoformat t.criado_em,
    atualizado_em := isoformat t.atualizado_em }

/-- `Tarefa.from_dict`: build through the constructor (which validates the
enums and resolves a falsy id), then overwrite `versao`, `criado_em` and
`atualizado_em` from the dictionary. -/
def Tarefa.from_dict (freshUuid : String) (agora : Nat) (data : TarefaDict) :
    Except Erro Tarefa :=
  match Tarefa.novo freshUuid agora data.titulo data.descricao data.responsavel
      data.status data.prioridade (some data.id) with
  | .error e => .error e
  | .ok t =>
    .ok { t with versao := data.versao,
                 criado_em := fromisoformat data.criado_em,
                 atualizado_em := fromisoformat data.atualizado_em }

/-! Audit log (`auditoria.py`). -/

/-- The `detalhes` payload of an audit entry: empty, a full record snapshot
(CREATE/DELETE) or a change-set (UPDATE). -/
inductive Detalhes where
  | vazio
  | tarefa (t : TarefaDict)
  | mudancas (m : Mudancas)
deriving DecidableEq, Repr

/-- One line of the audit log, as written by `AuditoriaLog.registrar`. -/
structure Entrada where
  timestamp : String
  operacao : String
  tarefa_id : String
  usuario : String
  detalhes : Detalhes
deriving DecidableEq, Repr

/-- `AuditoriaLog.registrar`: append one entry to the end of the log. -/
def registrar (log : List Entrada) (agora : Nat) (operacao tarefa_id usuario : String)
    (detalhes : Detalhes) : List Entrada :=
  log ++ [{ timestamp := isoformat agora, operacao := operacao,
            tarefa_id := tarefa_id, usuario := usuario, detalhes := detalhes }]

/-- Python truthiness filter of `obter_historico` and `listar`:
`if filtro and valor != filtro: continue` keeps the element unless the
filter is truthy (present and non-empty) and differs from the value. -/
def filtroTruthy (filtro : Option String) (v : String) : Bool :=
  match filtro with
  | none => true
  | some s => if s == "" then true else v == s

/-- Stable insertion into a list sorted by `timestamp` descending; an element
arriving later is placed after the entries with an equal key, matching the
stability of Python `list.sort(reverse=True)`. -/
def insereDesc (e : Entrada) : List Entrada → List Entrada
  | [] => [e]
  | x :: xs => if x.timestamp < e.timestamp then e :: x :: xs else x :: insereDesc e xs

/-- `historico.sort(key=..., reverse=True)`: stable sort by timestamp,
most recent first. -/
def ordenaDesc (l : List Entrada) : List Entrada :=
  l.foldl (fun acc e => insereDesc e acc) []

/-- `AuditoriaLog.obter_historico`: read every entry, apply the truthy
equality filters, sort by timestamp descending, then truncate only when
`limite` is truthy (`if limite:` — `None` and `0` both skip truncation). -/
def obter_historico (log : List Entrada) (tarefa_id operacao : Option String)
    (limite : Option Nat) : List Entrada :=
  let filtrado := log.filter fun e =>
    filtroTruthy tarefa_id e.tarefa_id && filtroTruthy operacao e.operacao
  let ordenado := ordenaDesc filtrado
  match limite with
  | none => ordenado
  | some l => if l == 0 then ordenado else ordenado.take l

/-! Repository (`repositorio.py`). -/

/-- The persisted collection document: the `tarefas` list plus the optional
`checksum` key (absent key modelled as `none`). -/
structure Dados where
  tarefas : List TarefaDict
  checksum : Option String
deriving DecidableEq, Repr

/-- The document after the comprehension
`{k: v for k, v in dados.items() if k != 'checksum'}`: everything except the
checksum key. -/
structure SemChecksum where
  tarefas : List TarefaDict
deriving DecidableEq, Repr

/-- Drop the checksum key, keeping all other content. -/
def dadosSemChecksum (d : Dados) : SemChecksum := { tarefas := d.tarefas }

/-- `_calcular_checksum`: the digest `chk` — the model of
`sha256(json.dumps(·, sort_keys=True))` — applied to the checksum-free
content. -/
def calcular_checksum (chk : SemChecksum → String) (dados : Dados) : String :=
  chk (dadosSemChecksum dados)

/-- `_verificar_integridade`: false when the checksum key is missing,
otherwise compare the stored checksum with the recomputed one. -/
def verificar_integridade (chk : SemChecksum → String) (dados : Dados) : Bool :=
  match dados.checksum with
  | none => false
  | some armazenado => armazenado == calcular_checksum chk dados

/-- `_carregar_dados`: a missing file yields the empty document; otherwise
read and verify integrity, raising on a mismatch. -/
def carregar_dados (chk : SemChecksum → String) (arquivo : Option Dados) :
    Except Erro Dados :=
  match arquivo with
  | none => .ok { tarefas := [], checksum := some "" }
  | some dados =>
    if verificar_integridade chk dados then .ok dados else .error .integridade

/-- `_salvar_dados`: embed the freshly computed checksum and write the whole
document. -/
def salvar_dados (chk : SemChecksum → String) (dados : Dados) : Dados :=
  { dados with checksum := some (calcular_checksum chk dados) }

/-- The state owned by one `RepositorioTarefas` instance: the data file
(`none` when absent) and the audit log file. -/
structure Repo where
  arquivo : Option Dados
  log : List Entrada
deriving DecidableEq, Repr

namespace RepositorioTarefas

/-- `__init__` when the data file does not yet exist:
`_salvar_dados({'tarefas': [], 'checksum': ''})` over an empty audit log. -/
def inicial (chk : SemChecksum → String) : Repo :=
  { arquivo := some (salvar_dados chk { tarefas := [], checksum := some "" }),
    log := [] }

/-- `RepositorioTarefas.criar`: load, reject a duplicate id, append the
record, save, then log a CREATE entry with the full snapshot. -/
def criar (chk : SemChecksum → String) (st : Repo) (agora : Nat) (tarefa : Tarefa)
    (usuario : String) : Except Erro Tarefa × Repo :=
  match carregar_dados chk st.arquivo with
  | .error e => (.error e, st)
  | .ok dados =>
    if dados.tarefas.any (fun t => t.id == tarefa.id) then
      (.error (.idDuplicado tarefa.id), st)
    else
      let dados2 := { dados with tarefas := dados.tarefas ++ [tarefa.to_dict] }
      (.ok tarefa,
       { arquivo := some (salvar_dados chk dados2),
         log := registrar st.log agora "CREATE" tarefa.id usuario (.tarefa tarefa.to_dict) })

/-- `RepositorioTarefas.obter`: load, return the first record with the given
id (or `none`). -/
def obter (chk : SemChecksum → String) (st : Repo) (freshUuid : String) (agora : Nat)
    (tarefa_id : String) : Except Erro (Option Tarefa) × Repo :=
  match carregar_dados chk st.arquivo with
  | .error e => (.error e, st)
  | .ok dados =>
    match dados.tarefas.find? (fun t => t.id == tarefa_id) with
    | none => (.ok none, st)
    | some td =>
      match Tarefa.from_dict freshUuid agora td with
      | .error e => (.error e, st)
      | .ok t => (.ok (some t), st)

/-- `RepositorioTarefas.listar`: load, keep the records passing every truthy
filter, deserialize each in document order. -/
def listar (chk : SemChecksum → String) (st : Repo) (freshUuid : String) (agora : Nat)
    (status prioridade responsavel : Option String) :
    Except Erro (List Tarefa) × Repo :=
  match carregar_dados chk st.arquivo with
  | .error e => (.error e, st)
  | .ok dados =>
    let escolhidos := dados.tarefas.filter fun t =>
      filtroTruthy status t.status && filtroTruthy prioridade t.prioridade &&
        filtroTruthy responsavel t.responsavel
    match escolhidos.mapM (Tarefa.from_dict freshUuid agora) with
    | .error e => (.error e, st)
    | .ok ts => (.ok ts, st)

end RepositorioTarefas

/-- The `for i, t in enumerate(...)` search for the first record with the
given id, split as (records before, the match, records after). -/
def separaPrimeiro (tarefa_id : String) :
    List TarefaDict → Option (List TarefaDict × TarefaDict × List TarefaDict)
  | [] => none
  | t :: ts =>
    if t.id == tarefa_id then some ([], t, ts)
    else
      match separaPrimeiro tarefa_id ts with
      | none => none
      | some (antes, alvo, depois) => some (t :: antes, alvo, depois)

namespace RepositorioTarefas

/-- `RepositorioTarefas.atualizar`: load, locate the record, deserialize it,
delegate to `Tarefa.atualizar`; on a non-empty change-set replace the record,
save and log an UPDATE entry; on an empty change-set return the record with
no write and no audit entry; `none` when the id is absent. -/
def atualizar (chk : SemChecksum → String) (st : Repo) (freshUuid : String)
    (agora : Nat) (tarefa_id usuario : String) (kwargs : List Kwarg) :
    Except Erro (Option Tarefa) × Repo :=
  match carregar_dados chk st.arquivo with
  | .error e => (.error e, st)
  | .ok dados =>
    match separaPrimeiro tarefa_id dados.tarefas with
    | none => (.ok none, st)
    | some (antes, td, depois) =>
      match Tarefa.from_dict freshUuid agora td with
      | .error e => (.error e, st)
      | .ok tarefa =>
        match Tarefa.atualizar tarefa agora kwargs with
        | (.error e, _) => (.error e, st)
        | (.ok mud, tarefa2) =>
          if mud.itens.isEmpty then (.ok (some tarefa2), st)
          else
            let dados2 := { dados with tarefas := antes ++ [tarefa2.to_dict] ++ depois }
            (.ok (some tarefa2),
             { arquivo := some (salvar_dados chk dados2),
               log := registrar st.log agora "UPDATE" tarefa2.id usuario (.mudancas mud) })

/-- `RepositorioTarefas.deletar`: load, pop the first record with the given
id, save, log a DELETE entry with the popped snapshot; `False` with no write
and no audit entry when the id is absent. -/
def deletar (chk : SemChecksum → String) (st : Repo) (agora : Nat)
    (tarefa_id usuario : String) : Except Erro Bool × Repo :=
  match carregar_dados chk st.arquivo with
  | .error e => (.error e, st)
  | .ok dados =>
    match separaPrimeiro tarefa_id dados.tarefas with
    | none => (.ok false, st)
    | some (antes, td, depois) =>
      let dados2 := { dados with tarefas := antes ++ depois }
      (.ok true,
       { arquivo := some (salvar_dados chk dados2),
         log := registrar st.log agora "DELETE" tarefa_id usuario (.tarefa td) })

/-- `RepositorioTarefas.obter_historico`: delegate to the audit log query
filtered by the record id. -/
def historico (st : Repo) (tarefa_id : String) : List Entrada :=
  obter_historico st.log (some tarefa_id) none none

end RepositorioTarefas

/-!
Concurrency model for `criar`.  In the source the mutual-exclusion lock is
acquired inside `_carregar_dados` and, separately, inside `_salvar_dados`
(`with self.lock:` in each), and is therefore released between the load and
the save of one operation.  Each lock-protected block is one atomic step; at
this granularity every interleaving of steps of concurrent operations is an
execution the lock permits.
-/

/-- The control state of one thread running `criar`: program counter 0 =
about to run the `_carregar_dados` critical section, 1 = about to run the
duplicate check plus `_salvar_dados` critical section, 2 = finished. -/
structure Lado where
  pc : Nat
  snap : Option (Except Erro Dados)
  res : Option (Except Erro Unit)
deriving Repr

/-- One atomic step of a thread running `criar tarefa` against the shared
data file. -/
def passoCriar (chk : SemChecksum → String) (tarefa : Tarefa) (arquivo : Option Dados)
    (l : Lado) : Lado × Option Dados :=
  match l.pc, l.snap with
  | 0, _ => ({ l with pc := 1, snap := some (carregar_dados chk arquivo) }, arquivo)
  | 1, some (.error e) => ({ l with pc := 2, res := some (.error e) }, arquivo)
  | 1, some (.ok dados) =>
    if dados.tarefas.any (fun t => t.id == tarefa.id) then
      ({ l with pc := 2, res := some (.error (.idDuplicado tarefa.id)) }, arquivo)
    else
      ({ l with pc := 2, res := some (.ok ()) },
       some (salvar_dados chk { dados with tarefas := dados.tarefas ++ [tarefa.to_dict] }))
  | _, _ => (l, arquivo)

/-- Two threads concurrently running `criar t1` and `criar t2` on the same
repository instance. -/
structure Exec2 where
  arquivo : Option Dados
  lado1 : Lado
  lado2 : Lado
deriving Repr

/-- Run one step of the scheduled thread (`false` = first thread, `true` =
second thread). -/
def passoExec (chk : SemChecksum → String) (t1 t2 : Tarefa) (e : Exec2) :
    Bool → Exec2
  | false =>
    let (l, a) := passoCriar chk t1 e.arquivo e.lado1
    { e with lado1 := l, arquivo := a }
  | true =>
    let (l, a) := passoCriar chk t2 e.arquivo e.lado2
    { e with lado2 := l, arquivo := a }

/-- Execute a full schedule of the two concurrent `criar` calls, starting
from a freshly initialised repository file. -/
def execEscalonamento (chk : SemChecksum → String) (t1 t2 : Tarefa)
    (escala : List Bool) : Exec2 :=
  escala.foldl (passoExec chk t1 t2)
    { arquivo := (RepositorioTarefas.inicial chk).arquivo,
      lado1 := { pc := 0, snap := none, res := none },
      lado2 := { pc := 0, snap := none, res := none } }

/-!
A concrete injective digest, used to instantiate the abstract checksum
function in witnesses: it encodes the checksum-free document into a natural
number through the standard pairing function and renders that number as a
string. -/

/-- Injective encoding of a list through `Nat.pair`. -/
def codList {α : Type} (f : α → Nat) (l : List α) : Nat :=
  l.foldr (fun x acc => Nat.pair (f x) acc + 1) 0

/-- Injective encoding of a string. -/
def codString (s : String) : Nat := codList Char.toNat s.data

/-- Injective encoding of a serialized record. -/
def codTarefaDict (t : TarefaDict) : Nat :=
  Nat.pair (codString t.id) (Nat.pair (codString t.titulo)
    (Nat.pair (codString t.descricao) (Nat.pair (codString t.status)
      (Nat.pair (codString t.prioridade) (Nat.pair (codString t.responsavel)
        (Nat.pair t.versao (Nat.pair (codString t.criado_em)
          (codString t.atualizado_em))))))))

/-- Injective encoding of the checksum-free document. -/
def codSem (c : SemChecksum) : Nat := codList codTarefaDict c.tarefas

/-- A concrete injective digest function for witnesses. -/
def chkTestemunha (c : SemChecksum) : String :=
  String.mk (List.replicate (codSem c) 'a')

/-- A keyword argument whose proposed value fails the enum validation of
`Tarefa.atualizar`. -/
def kwargInvalido : Kwarg → Bool
  | .status v => !STATUS_VALIDOS.contains v
  | .prioridade v => !PRIORIDADES_VALIDAS.contains v
  | _ => false

/-- A keyword argument that assigns the `versao` attribute itself. -/
def mudaVersao : Kwarg → Bool
  | .versao _ => true
  | _ => false

/-- A keyword argument whose proposed value equals the record's current value
(vacuously true for a name that fails `hasattr`). -/
def propoeIgual (t : Tarefa) : Kwarg → Bool
  | .id v => v == t.id
  | .titulo v => v == t.titulo
  | .descricao v => v == t.descricao
  | .responsavel v => v == t.responsavel
  | .status v => v == t.status
  | .prioridade v => v == t.prioridade
  | .versao v => v == t.versao
  | .criado_em v => v == t.criado_em
  | .atualizado_em v => v == t.atualizado_em
  | .desconhecido _ _ => true

/-- A concrete valid record used as test input. -/
def tarefaExemplo : Tarefa :=
  { id := "t1", titulo := "a", descricao := "d", responsavel := "r",
    status := "PENDENTE", prioridade := "MEDIA", versao := 1,
    criado_em := 0, atualizado_em := 0 }

/-- Its serialized form. -/
def tdExemplo : TarefaDict := tarefaExemplo.to_dict

/-- A one-record document before checksum embedding. -/
def dadosSimples : Dados := { tarefas := [tdExemplo], checksum := none }

/-- A repository state whose data file holds the one-record document, saved
with a checksum under the given digest. -/
def stExemplo (chk : SemChecksum → String) : Repo :=
  { arquivo := some (salvar_dados chk dadosSimples), log := [] }

theorem codList_injective {α : Type} {f : α → Nat} (hf : Function.Injective f) :
    Function.Injective (codList f) := by
  intro a
  induction a with
  | nil =>
    intro b h
    cases b with
    | nil => rfl
    | cons y ys => simp [codList] at h
  | cons x xs ih =>
    intro b h
    cases b with
    | nil => simp [codList] at h
    | cons y ys =>
      simp only [codList, List.foldr] at h
      have h2 : Nat.pair (f x) (codList f xs) = Nat.pair (f y) (codList f ys) := by
        simpa [codList] using h
      obtain ⟨hx, hrest⟩ := Nat.pair_eq_pair.mp h2
      rw [hf hx, ih hrest]

theorem charToNat_injective : Function.Injective Char.toNat := by
  intro a b h
  apply Char.ext
  apply UInt32.ext
  exact h

theorem codString_injective : Function.Injective codString := by
  intro a b h
  have h2 : a.data = b.data := codList_injective charToNat_injective h
  cases a
  cases b
  congr

theorem codTarefaDict_injective : Function.Injective codTarefaDict := by
  intro a b h
  simp only [codTarefaDict, Nat.pair_eq_pair] at h
  obtain ⟨h1, h2, h3, h4, h5, h6, h7, h8, h9⟩ := h
  cases a
  cases b
  simp only [TarefaDict.mk.injEq]
  exact ⟨codString_injective h1, codString_injective h2, codString_injective h3,
         codString_injective h4, codString_injective h5, codString_injective h6,
         h7, codString_injective h8, codString_injective h9⟩

theorem codSem_injective : Function.Injective codSem := by
  intro a b h
  have h2 : a.tarefas = b.tarefas := codList_injective codTarefaDict_injective h
  cases a
  cases b
  simpa only [SemChecksum.mk.injEq] using h2

theorem chkTestemunha_injective : Function.Injective chkTestemunha := by
  intro a b h
  apply codSem_injective
  apply List.replicate_left_injective 'a'
  have h2 : (String.mk (List.replicate (codSem a) 'a')).data
      = (String.mk (List.replicate (codSem b) 'a')).data := congrArg String.data h
  simpa using h2

/-! Helper lemmas. -/

/-- The textual timestamp encoding is lossless. -/
theorem fromisoformat_isoformat (t : Nat) : fromisoformat (isoformat t) = t := by
  simp [isoformat, fromisoformat]

theorem separaPrimeiro_none {tid : String} {l : List TarefaDict}
    (h : separaPrimeiro tid l = none) : ∀ x ∈ l, (x.id == tid) = false := by
  induction l with
  | nil => intro x hx; cases hx
  | cons t ts ih =>
    intro x hx
    by_cases ht : (t.id == tid) = true
    · simp [separaPrimeiro, ht] at h
    · simp only [separaPrimeiro, Bool.not_eq_true] at h ht
      rw [ht] at h
      simp only [Bool.false_eq_true, if_false] at h
      cases hx with
      | head => exact ht
      | tail _ hx2 =>
        cases hrec : separaPrimeiro tid ts with
        | none => exact ih hrec x hx2
        | some p =>
          obtain ⟨antes, alvo, depois⟩ := p
          rw [hrec] at h
          simp at h

theorem separaPrimeiro_some {tid : String} {l antes depois : List TarefaDict}
    {alvo : TarefaDict} (h : separaPrimeiro tid l = some (antes, alvo, depois)) :
    l = antes ++ alvo :: depois ∧ (alvo.id == tid) = true ∧
      ∀ y ∈ antes, (y.id == tid) = false := by
  induction l generalizing antes alvo depois with
  | nil => simp [separaPrimeiro] at h
  | cons t ts ih =>
    by_cases ht : (t.id == tid) = true
    · simp only [separaPrimeiro, ht, if_true, Option.some.injEq, Prod.mk.injEq] at h
      obtain ⟨h1, h2, h3⟩ := h
      subst h1 h2 h3
      exact ⟨rfl, ht, by intro y hy; cases hy⟩
    · simp only [separaPrimeiro, Bool.not_eq_true] at h ht
      rw [ht] at h
      simp only [Bool.false_eq_true, if_false] at h
      cases hrec : separaPrimeiro tid ts with
      | none => rw [hrec] at h; simp at h
      | some p =>
        obtain ⟨antes2, alvo2, depois2⟩ := p
        rw [hrec] at h
        simp only [Option.some.injEq, Prod.mk.injEq] at h
        obtain ⟨h1, h2, h3⟩ := h
        obtain ⟨g1, g2, g3⟩ := ih hrec
        subst h2 h3
        subst h1
        refine ⟨by rw [g1]; rfl, g2, ?_⟩
        intro y hy
        cases hy with
        | head => exact ht
        | tail _ hy2 => exact g3 y hy2

theorem passo_valido {t : Tarefa} {acc : List Item} {k : Kwarg}
    (hk : kwargInvalido k = false) :
    ∃ p, Tarefa.passo t acc k = .ok p := by
  cases k with
  | id v => dsimp only [Tarefa.passo]; split <;> exact ⟨_, rfl⟩
  | titulo v => dsimp only [Tarefa.passo]; split <;> exact ⟨_, rfl⟩
  | descricao v => dsimp only [Tarefa.passo]; split <;> exact ⟨_, rfl⟩
  | responsavel v => dsimp only [Tarefa.passo]; split <;> exact ⟨_, rfl⟩
  | status v =>
    have hc : STATUS_VALIDOS.contains v = true := by simpa [kwargInvalido] using hk
    dsimp only [Tarefa.passo]
    rw [if_pos hc]
    split <;> exact ⟨_, rfl⟩
  | prioridade v =>
    have hc : PRIORIDADES_VALIDAS.contains v = true := by simpa [kwargInvalido] using hk
    dsimp only [Tarefa.passo]
    rw [if_pos hc]
    split <;> exact ⟨_, rfl⟩
  | versao v => dsimp only [Tarefa.passo]; split <;> exact ⟨_, rfl⟩
  | criado_em v => dsimp only [Tarefa.passo]; split <;> exact ⟨_, rfl⟩
  | atualizado_em v => dsimp only [Tarefa.passo]; split <;> exact ⟨_, rfl⟩
  | desconhecido n v => exact ⟨_, rfl⟩

theorem passo_invalido {t : Tarefa} {acc : List Item} {k : Kwarg}
    (hk : kwargInvalido k = true) :
    ∃ e, Tarefa.passo t acc k = .error e ∧ e.eValidacao = true := by
  cases k <;> simp [kwargInvalido] at hk
  case status v =>
    exact ⟨.statusInvalido v, by simp [Tarefa.passo, hk], rfl⟩
  case prioridade v =>
    exact ⟨.prioridadeInvalida v, by simp [Tarefa.passo, hk], rfl⟩

theorem passo_versao {t t2 : Tarefa} {acc acc2 : List Item} {k : Kwarg}
    (hk : mudaVersao k = false) (h : Tarefa.passo t acc k = .ok (t2, acc2)) :
    t2.versao = t.versao := by
  cases k with
  | versao v => simp [mudaVersao] at hk
  | desconhecido n v =>
    simp only [Tarefa.passo, Except.ok.injEq, Prod.mk.injEq] at h
    rw [← h.1]
  | id v =>
    dsimp only [Tarefa.passo] at h
    split at h <;> (simp only [Except.ok.injEq, Prod.mk.injEq] at h; rw [← h.1])
  | titulo v =>
    dsimp only [Tarefa.passo] at h
    split at h <;> (simp only [Except.ok.injEq, Prod.mk.injEq] at h; rw [← h.1])
  | descricao v =>
    dsimp only [Tarefa.passo] at h
    split at h <;> (simp only [Except.ok.injEq, Prod.mk.injEq] at h; rw [← h.1])
  | responsavel v =>
    dsimp only [Tarefa.passo] at h
    split at h <;> (simp only [Except.ok.injEq, Prod.mk.injEq] at h; rw [← h.1])
  | criado_em v =>
    dsimp only [Tarefa.passo] at h
    split at h <;> (simp only [Except.ok.injEq, Prod.mk.injEq] at h; rw [← h.1])
  | atualizado_em v =>
    dsimp only [Tarefa.passo] at h
    split at h <;> (simp only [Except.ok.injEq, Prod.mk.injEq] at h; rw [← h.1])
  | status v =>
    dsimp only [Tarefa.passo] at h
    split at h
    · split at h <;> (simp only [Except.ok.injEq, Prod.mk.injEq] at h; rw [← h.1])
    · simp at h
  | prioridade v =>
    dsimp only [Tarefa.passo] at h
    split at h
    · split at h <;> (simp only [Except.ok.injEq, Prod.mk.injEq] at h; rw [← h.1])
    · simp at h

theorem passo_igual {t : Tarefa} {acc : List Item} {k : Kwarg}
    (hst : STATUS_VALIDOS.contains t.status = true)
    (hpr : PRIORIDADES_VALIDAS.contains t.prioridade = true)
    (hk : propoeIgual t k = true) :
    Tarefa.passo t acc k = .ok (t, acc) := by
  have hst2 : t.status ∈ STATUS_VALIDOS := by simpa using hst
  have hpr2 : t.prioridade ∈ PRIORIDADES_VALIDAS := by simpa using hpr
  cases k <;> simp only [propoeIgual, beq_iff_eq] at hk <;>
    simp [Tarefa.passo, hk, hst2, hpr2]

theorem atualizarGo_invalido {t : Tarefa} {acc : List Item}
    {pre : List Kwarg} {k : Kwarg} {post : List Kwarg}
    (hpre : ∀ x ∈ pre, kwargInvalido x = false) (hk : kwargInvalido k = true) :
    ∃ e, Tarefa.atualizarGo t acc (pre ++ k :: post)
        = (.error e, (Tarefa.atualizarGo t acc pre).2) ∧ e.eValidacao = true := by
  induction pre generalizing t acc with
  | nil =>
    obtain ⟨e, he, hev⟩ := @passo_invalido t acc k hk
    exact ⟨e, by simp [Tarefa.atualizarGo, he], hev⟩
  | cons x xs ih =>
    obtain ⟨⟨t2, acc2⟩, hx⟩ := @passo_valido t acc x
      (hpre x (List.mem_cons_self x xs))
    obtain ⟨e, he, hev⟩ := @ih t2 acc2
      (fun y hy => hpre y (List.mem_cons_of_mem x hy))
    refine ⟨e, ?_, hev⟩
    simp only [List.cons_append, Tarefa.atualizarGo, hx]
    exact he

theorem atualizarGo_versao {t t2 : Tarefa} {acc itens : List Item} {ks : List Kwarg}
    (hks : ∀ x ∈ ks, mudaVersao x = false)
    (h : Tarefa.atualizarGo t acc ks = (.ok itens, t2)) :
    t2.versao = t.versao := by
  induction ks generalizing t acc with
  | nil =>
    simp only [Tarefa.atualizarGo, Prod.mk.injEq] at h
    rw [← h.2]
  | cons x xs ih =>
    simp only [Tarefa.atualizarGo] at h
    cases hx : Tarefa.passo t acc x with
    | error e => rw [hx] at h; simp at h
    | ok p =>
      obtain ⟨t3, acc3⟩ := p
      rw [hx] at h
      have hv := passo_versao (hks x (List.mem_cons_self x xs)) hx
      rw [ih (fun y hy => hks y (List.mem_cons_of_mem x hy)) h, hv]

theorem atualizarGo_igual {t : Tarefa} {acc : List Item} {ks : List Kwarg}
    (hst : STATUS_VALIDOS.contains t.status = true)
    (hpr : PRIORIDADES_VALIDAS.contains t.prioridade = true)
    (hks : ∀ x ∈ ks, propoeIgual t x = true) :
    Tarefa.atualizarGo t acc ks = (.ok acc, t) := by
  induction ks with
  | nil => rfl
  | cons x xs ih =>
    simp only [Tarefa.atualizarGo,
      passo_igual hst hpr (hks x (List.mem_cons_self x xs))]
    exact ih fun y hy => hks y (List.mem_cons_of_mem x hy)

theorem separaPrimeiro_eq_none {tid : String} {l : List TarefaDict}
    (h : ∀ x ∈ l, (x.id == tid) = false) : separaPrimeiro tid l = none := by
  induction l with
  | nil => rfl
  | cons t ts ih =>
    have ht := h t (List.mem_cons_self t ts)
    simp only [separaPrimeiro, ht, Bool.false_eq_true, if_false]
    rw [ih fun y hy => h y (List.mem_cons_of_mem t hy)]

/-- Saving then loading always succeeds: the embedded checksum matches the
recomputed one. -/
theorem carregar_salvar (chk : SemChecksum → String) (d : Dados) :
    carregar_dados chk (some (salvar_dados chk d)) = .ok (salvar_dados chk d) := by
  simp [carregar_dados, verificar_integridade, salvar_dados, calcular_checksum,
        dadosSemChecksum]

/-- C9: deserializing the serialized form of a valid record — one whose
status and priority are in the enums and whose id is non-empty, as every
constructed record's is — yields a record equal to it in every field, the
timestamps round-tripping losslessly through their textual form. -/
theorem C9_serializacao_roundtrip (r : Tarefa) (freshUuid : String) (agora : Nat)
    (hst : STATUS_VALIDOS.contains r.status = true)
    (hpr : PRIORIDADES_VALIDAS.contains r.prioridade = true)
    (hid : r.id ≠ "") :
    Tarefa.from_dict freshUuid agora (Tarefa.to_dict r) = .ok r := by
  have hid2 : (r.id == "") = false := by simpa using hid
  have hst2 : r.status ∈ STATUS_VALIDOS := by simpa using hst
  have hpr2 : r.prioridade ∈ PRIORIDADES_VALIDAS := by simpa using hpr
  cases r with
  | mk id titulo descricao responsavel status prioridade versao criado atualizado =>
    simp only [Tarefa.to_dict] at *
    simp [Tarefa.from_dict, Tarefa.novo, hst2, hpr2, hid2, fromisoformat_isoformat]

/-- Witness for C9 at a concrete record. -/
theorem C9_serializacao_roundtrip_witness :
    Tarefa.from_dict "f" 3 (Tarefa.to_dict tarefaExemplo) = .ok tarefaExemplo :=
  C9_serializacao_roundtrip tarefaExemplo "f" 3 (by decide) (by decide) (by decide)

/-- C10: an empty-string filter supplied to `listar` is falsy and therefore
ignored, exactly like an absent filter; the same holds for the audit query
filters, and a limit of 0 is falsy, returning all entries rather than none. -/
theorem C10_filtros_falsy (chk : SemChecksum → String) (st : Repo)
    (freshUuid : String) (agora : Nat) (log : List Entrada) :
    RepositorioTarefas.listar chk st freshUuid agora (some "") (some "") (some "")
      = RepositorioTarefas.listar chk st freshUuid agora none none none
    ∧ obter_historico log (some "") (some "") (some 0)
      = obter_historico log none none none
    ∧ obter_historico log none none (some 0)
      = obter_historico log none none none := by
  refine ⟨?_, ?_, ?_⟩ <;> rfl

/-- C5: when the loaded document has no checksum or a mismatching checksum,
every repository operation fails with the integrity error, the error
propagates unmasked, and the state — document and audit log — is untouched. -/
theorem C5_integridade_propaga (chk : SemChecksum → String) (st : Repo) (d : Dados)
    (t : Tarefa) (freshUuid usuario tid : String) (agora : Nat)
    (fs fp fr : Option String) (kwargs : List Kwarg)
    (harq : st.arquivo = some d)
    (hver : verificar_integridade chk d = false) :
    RepositorioTarefas.criar chk st agora t usuario = (.error .integridade, st)
    ∧ RepositorioTarefas.obter chk st freshUuid agora tid = (.error .integridade, st)
    ∧ RepositorioTarefas.listar chk st freshUuid agora fs fp fr
        = (.error .integridade, st)
    ∧ RepositorioTarefas.atualizar chk st freshUuid agora tid usuario kwargs
        = (.error .integridade, st)
    ∧ RepositorioTarefas.deletar chk st agora tid usuario
        = (.error .integridade, st) := by
  have hc : carregar_dados chk st.arquivo = .error .integridade := by
    rw [harq]
    simp [carregar_dados, hver]
  refine ⟨?_, ?_, ?_, ?_, ?_⟩ <;>
    simp [RepositorioTarefas.criar, RepositorioTarefas.obter,
          RepositorioTarefas.listar, RepositorioTarefas.atualizar,
          RepositorioTarefas.deletar, hc]

/-- Witness for C5: a document whose stored checksum does not match. -/
theorem C5_integridade_propaga_witness :
    RepositorioTarefas.criar chkTestemunha
        { arquivo := some { tarefas := [], checksum := some "x" }, log := [] }
        3 tarefaExemplo "u"
      = (.error .integridade,
         { arquivo := some { tarefas := [], checksum := some "x" }, log := [] }) :=
  (C5_integridade_propaga chkTestemunha
    { arquivo := some { tarefas := [], checksum := some "x" }, log := [] }
    { tarefas := [], checksum := some "x" } tarefaExemplo "f" "u" "t1" 3
    none none none [] rfl (by decide)).1

/-- C7: creating a record whose id is already present fails with the
duplicate-id error and leaves the document and the audit log unchanged. -/
theorem C7_criar_duplicado (chk : SemChecksum → String) (st : Repo) (d : Dados)
    (t : Tarefa) (usuario : String) (agora : Nat)
    (hload : carregar_dados chk st.arquivo = .ok d)
    (hdup : d.tarefas.any (fun td => td.id == t.id) = true) :
    RepositorioTarefas.criar chk st agora t usuario
      = (.error (.idDuplicado t.id), st) := by
  simp [RepositorioTarefas.criar, hload, hdup]

/-- Witness for C7: creating `tarefaExemplo` into a store already holding a
record with id `t1`. -/
theorem C7_criar_duplicado_witness :
    RepositorioTarefas.criar chkTestemunha (stExemplo chkTestemunha) 3 tarefaExemplo "u"
      = (.error (.idDuplicado tarefaExemplo.id), stExemplo chkTestemunha) :=
  C7_criar_duplicado chkTestemunha (stExemplo chkTestemunha)
    (salvar_dados chkTestemunha dadosSimples) tarefaExemplo "u" 3
    (carregar_salvar chkTestemunha dadosSimples) (by decide)

/-- C2 (counterexample): an update request proposing an invalid status after
other fields does raise the validation error, yet the fields processed
before it have already been applied: the title has changed and the version
attribute was overwritten, refuting "no field of the record is modified and
its version is unchanged, regardless of the order". -/
theorem C2_contraexemplo :
    Tarefa.atualizar tarefaExemplo 5
        [Kwarg.titulo "b", Kwarg.versao 7, Kwarg.status "XX"]
      = (.error (.statusInvalido "XX"),
         { tarefaExemplo with titulo := "b", versao := 7 })
    ∧ tarefaExemplo.titulo = "a" ∧ tarefaExemplo.versao = 1 :=
  ⟨rfl, rfl, rfl⟩

/-- C2 (amended): an update request containing an invalid status or priority
value always fails with a validation error and no version increment or
timestamp refresh is performed; the entries before the first invalid one
have, however, already been applied to the record, and the invalid entry and
everything after it are not applied.  In particular, when the invalid entry
comes first the record is wholly unmodified. -/
theorem C2_validacao_sem_aplicacao_parcial (t : Tarefa) (agora : Nat)
    (pre : List Kwarg) (k : Kwarg) (post : List Kwarg)
    (hpre : ∀ x ∈ pre, kwargInvalido x = false)
    (hk : kwargInvalido k = true) :
    ∃ e, Tarefa.atualizar t agora (pre ++ k :: post)
        = (.error e, (Tarefa.atualizarGo t [] pre).2) ∧ e.eValidacao = true := by
  obtain ⟨e, he, hev⟩ := @atualizarGo_invalido t [] pre k post hpre hk
  exact ⟨e, by simp [Tarefa.atualizar, he], hev⟩

/-- Witness for the amended C2: invalid status first, record untouched. -/
theorem C2_validacao_sem_aplicacao_parcial_witness :
    ∃ e, Tarefa.atualizar tarefaExemplo 5 ([] ++ Kwarg.status "XX" :: [Kwarg.titulo "b"])
        = (.error e, (Tarefa.atualizarGo tarefaExemplo [] []).2) ∧ e.eValidacao = true :=
  C2_validacao_sem_aplicacao_parcial tarefaExemplo 5 [] (Kwarg.status "XX")
    [Kwarg.titulo "b"] (by decide) (by decide)

/-- C3: the id is not immutable: an update request supplying the field name
`id` changes an existing record's id, both on the record object and in the
persisted document, where the renamed record is saved and no record with the
original id remains. -/
theorem C3_id_mutado_por_atualizar (chk : SemChecksum → String) :
    (Tarefa.atualizar tarefaExemplo 3 [Kwarg.id "t2"]).2.id = "t2"
    ∧ tarefaExemplo.id = "t1"
    ∧ (RepositorioTarefas.atualizar chk (stExemplo chk) "f" 3 "t1" "u" [Kwarg.id "t2"]).1
        = .ok (some { tarefaExemplo with id := "t2", versao := 2, atualizado_em := 3 })
    ∧ ∃ d2, (RepositorioTarefas.atualizar chk (stExemplo chk) "f" 3 "t1" "u"
          [Kwarg.id "t2"]).2.arquivo = some d2
        ∧ d2.tarefas.map TarefaDict.id = ["t2"] := by
  have hload := carregar_salvar chk dadosSimples
  have hsep : separaPrimeiro "t1" (salvar_dados chk dadosSimples).tarefas
      = some ([], tdExemplo, []) := by
    show separaPrimeiro "t1" dadosSimples.tarefas = some ([], tdExemplo, [])
    decide
  have hfd : Tarefa.from_dict "f" 3 tdExemplo = .ok tarefaExemplo := rfl
  have hat : Tarefa.atualizar tarefaExemplo 3 [Kwarg.id "t2"]
      = (.ok { itens := [("id", Valor.s "t1", Valor.s "t2")], versaoNova := some 2,
               atualizadoEmNova := some (isoformat 3) },
         { tarefaExemplo with id := "t2", versao := 2, atualizado_em := 3 }) := rfl
  refine ⟨rfl, rfl, ?_, ?_⟩
  · simp only [RepositorioTarefas.atualizar, stExemplo, hload, hsep, hfd, hat]
    rfl
  · simp only [RepositorioTarefas.atualizar, stExemplo, hload, hsep, hfd, hat]
    exact ⟨_, rfl, rfl⟩

/-- C4 (counterexample): an update request that assigns the `versao`
attribute itself changes a field, yet the version does not increase by
exactly 1: it is first overwritten to the proposed value and then
incremented, going from 1 to 6 here. -/
theorem C4_contraexemplo :
    Tarefa.atualizar tarefaExemplo 9 [Kwarg.versao 5]
      = (.ok { itens := [("versao", Valor.n 1, Valor.n 5)], versaoNova := some 6,
               atualizadoEmNova := some (isoformat 9) },
         { tarefaExemplo with versao := 6, atualizado_em := 9 })
    ∧ tarefaExemplo.versao = 1 ∧ (6 : Nat) ≠ tarefaExemplo.versao + 1 :=
  ⟨rfl, rfl, by decide⟩

/-- C4 (amended): an update that changes at least one field and does not
itself assign the `versao` attribute increments the version by exactly 1 and
sets the update timestamp to the update instant (which advances it whenever
the clock has advanced); an update in which every proposed value equals the
current value leaves the record, the persisted document and the audit log
untouched — no write and no audit entry. -/
theorem C4_versao_e_noop (t : Tarefa) (agora : Nat) (ks : List Kwarg)
    (m : Mudancas) (t2 : Tarefa)
    (chk : SemChecksum → String) (st : Repo) (d : Dados)
    (tid usuario freshUuid : String) (agora2 : Nat) (ks2 : List Kwarg)
    (antes depois : List TarefaDict) (td : TarefaDict) (tar : Tarefa)
    (hnov : ∀ x ∈ ks, mudaVersao x = false)
    (hup : Tarefa.atualizar t agora ks = (.ok m, t2))
    (hne : m.itens ≠ [])
    (hload : carregar_dados chk st.arquivo = .ok d)
    (hsep : separaPrimeiro tid d.tarefas = some (antes, td, depois))
    (hfd : Tarefa.from_dict freshUuid agora2 td = .ok tar)
    (hst : STATUS_VALIDOS.contains tar.status = true)
    (hpr : PRIORIDADES_VALIDAS.contains tar.prioridade = true)
    (heq : ∀ k ∈ ks2, propoeIgual tar k = true) :
    (t2.versao = t.versao + 1 ∧ t2.atualizado_em = agora
      ∧ (t.atualizado_em < agora → t.atualizado_em < t2.atualizado_em))
    ∧ RepositorioTarefas.atualizar chk st freshUuid agora2 tid usuario ks2
        = (.ok (some tar), st) := by
  constructor
  · cases hgo : Tarefa.atualizarGo t [] ks with
    | mk res t3 =>
      rw [Tarefa.atualizar, hgo] at hup
      cases res with
      | error e => simp at hup
      | ok itens =>
        dsimp only at hup
        by_cases hit : itens.isEmpty = true
        · rw [if_pos hit] at hup
          simp only [Prod.mk.injEq, Except.ok.injEq] at hup
          exact absurd (congrArg Mudancas.itens hup.1.symm) hne
        · rw [if_neg hit] at hup
          simp only [Prod.mk.injEq, Except.ok.injEq] at hup
          have hv : t3.versao = t.versao := atualizarGo_versao hnov hgo
          rw [← hup.2, hv]
          exact ⟨rfl, rfl, fun h => h⟩
  · have hgo2 := @atualizarGo_igual tar [] ks2 hst hpr heq
    have hat : Tarefa.atualizar tar agora2 ks2
        = (.ok { itens := [], versaoNova := none, atualizadoEmNova := none }, tar) := by
      rw [Tarefa.atualizar, hgo2]
      rfl
    simp [RepositorioTarefas.atualizar, hload, hsep, hfd, hat]

/-- Witness for the amended C4: a status change bumps the version from 1 to
2 and stamps the update instant; a same-value update over the example store
returns the record with the state untouched. -/
theorem C4_versao_e_noop_witness :
    (({ tarefaExemplo with
        status := "EM_ANDAMENTO", versao := 2, atualizado_em := 5 } : Tarefa).versao
          = tarefaExemplo.versao + 1
      ∧ ({ tarefaExemplo with
           status := "EM_ANDAMENTO", versao := 2, atualizado_em := 5 } : Tarefa).atualizado_em
            = 5
      ∧ (tarefaExemplo.atualizado_em < 5 →
          tarefaExemplo.atualizado_em
            < ({ tarefaExemplo with
                 status := "EM_ANDAMENTO", versao := 2,
                 atualizado_em := 5 } : Tarefa).atualizado_em))
    ∧ RepositorioTarefas.atualizar chkTestemunha (stExemplo chkTestemunha) "f" 7 "t1" "u"
        [Kwarg.titulo "a"]
        = (.ok (some tarefaExemplo), stExemplo chkTestemunha) :=
  C4_versao_e_noop tarefaExemplo 5 [Kwarg.status "EM_ANDAMENTO"]
    { itens := [("status", Valor.s "PENDENTE", Valor.s "EM_ANDAMENTO")],
      versaoNova := some 2, atualizadoEmNova := some (isoformat 5) }
    { tarefaExemplo with
      status := "EM_ANDAMENTO", versao := 2, atualizado_em := 5 }
    chkTestemunha (stExemplo chkTestemunha) (salvar_dados chkTestemunha dadosSimples)
    "t1" "u" "f" 7 [Kwarg.titulo "a"] [] [] tdExemplo tarefaExemplo
    (by decide) rfl (by decide)
    (carregar_salvar chkTestemunha dadosSimples)
    (by show separaPrimeiro "t1" dadosSimples.tarefas = some ([], tdExemplo, []); decide)
    rfl (by decide) (by decide) (by decide)

/-- C6: replacing any document's checksum with the checksum recomputed over
its non-checksum content yields a document that passes verification; and —
assuming the digest is collision-free, as a cryptographic digest is meant to
be — changing the non-checksum content of a passing document while keeping
its stored checksum yields a document that fails verification. -/
theorem C6_checksum_cobre_conteudo (chk : SemChecksum → String) (e d d2 : Dados)
    (hinj : Function.Injective chk)
    (hpass : verificar_integridade chk d = true)
    (hcs : d2.checksum = d.checksum)
    (hne : d2.tarefas ≠ d.tarefas) :
    verificar_integridade chk { e with checksum := some (calcular_checksum chk e) } = true
    ∧ verificar_integridade chk d2 = false := by
  constructor
  · simp [verificar_integridade, calcular_checksum, dadosSemChecksum]
  · cases hcd : d.checksum with
    | none => rw [verificar_integridade, hcd] at hpass; simp at hpass
    | some c =>
      rw [verificar_integridade, hcd] at hpass
      have hc : c = calcular_checksum chk d := by simpa using hpass
      rw [verificar_integridade, hcs, hcd]
      simp only [beq_eq_false_iff_ne, ne_eq]
      intro hEq
      have hsem : dadosSemChecksum d = dadosSemChecksum d2 := by
        apply hinj
        show calcular_checksum chk d = calcular_checksum chk d2
        rw [← hc, ← hEq]
      exact hne (congrArg SemChecksum.tarefas hsem).symm

/-- Witness for C6: the injective digest, an empty passing document and a
mutated document keeping the stored checksum. -/
theorem C6_checksum_cobre_conteudo_witness :
    verificar_integridade chkTestemunha
        { (⟨[tdExemplo], none⟩ : Dados) with
          checksum := some (calcular_checksum chkTestemunha ⟨[tdExemplo], none⟩) } = true
    ∧ verificar_integridade chkTestemunha ⟨[tdExemplo], some ""⟩ = false :=
  C6_checksum_cobre_conteudo chkTestemunha ⟨[tdExemplo], none⟩ ⟨[], some ""⟩
    ⟨[tdExemplo], some ""⟩ chkTestemunha_injective (by decide) rfl (by decide)

/-- C8: deleting an id absent from the document returns failure with no
write and no audit entry; deleting a present id removes exactly the first
matching record, persists the document, and appends exactly one DELETE audit
entry holding that record's last persisted snapshot. -/
theorem C8_deletar_remove_exatamente_um (chk : SemChecksum → String) (st : Repo)
    (d : Dados) (tid usuario : String) (agora : Nat)
    (hload : carregar_dados chk st.arquivo = .ok d) :
    ((∀ x ∈ d.tarefas, (x.id == tid) = false) →
        RepositorioTarefas.deletar chk st agora tid usuario = (.ok false, st))
    ∧ ∀ antes td2 depois, separaPrimeiro tid d.tarefas = some (antes, td2, depois) →
        RepositorioTarefas.deletar chk st agora tid usuario
          = (.ok true,
             { arquivo := some (salvar_dados chk { d with tarefas := antes ++ depois }),
               log := st.log ++ [{ timestamp := isoformat agora, operacao := "DELETE",
                                   tarefa_id := tid, usuario := usuario,
                                   detalhes := .tarefa td2 }] })
        ∧ d.tarefas = antes ++ td2 :: depois ∧ (td2.id == tid) = true
        ∧ ∀ y ∈ antes, (y.id == tid) = false := by
  constructor
  · intro hall
    have hsep := separaPrimeiro_eq_none hall
    simp [RepositorioTarefas.deletar, hload, hsep]
  · intro antes td2 depois hsep
    obtain ⟨h1, h2, h3⟩ := separaPrimeiro_some hsep
    refine ⟨?_, h1, h2, h3⟩
    simp [RepositorioTarefas.deletar, hload, hsep, registrar]

/-- Witness for C8: deleting the only record of the example store. -/
theorem C8_deletar_remove_exatamente_um_witness :
    RepositorioTarefas.deletar chkTestemunha (stExemplo chkTestemunha) 9 "t1" "u"
      = (.ok true,
         { arquivo := some (salvar_dados chkTestemunha
             { salvar_dados chkTestemunha dadosSimples with
               tarefas := ([] : List TarefaDict) ++ [] }),
           log := (stExemplo chkTestemunha).log ++
             [{ timestamp := isoformat 9, operacao := "DELETE", tarefa_id := "t1",
                usuario := "u", detalhes := .tarefa tdExemplo }] })
    ∧ (salvar_dados chkTestemunha dadosSimples).tarefas = [] ++ tdExemplo :: []
    ∧ (tdExemplo.id == "t1") = true
    ∧ ∀ y ∈ ([] : List TarefaDict), (y.id == "t1") = false :=
  (C8_deletar_remove_exatamente_um chkTestemunha (stExemplo chkTestemunha)
    (salvar_dados chkTestemunha dadosSimples) "t1" "u" 9
    (carregar_salvar chkTestemunha dadosSimples)).2 [] tdExemplo []
    (by show separaPrimeiro "t1" dadosSimples.tarefas = some ([], tdExemplo, []); decide)

/-- C1: the lock is released between the load critical section and the save
critical section of `criar`, so the schedule load1–load2–save1–save2 — in
which the second operation's load runs between the first operation's load
and save — is permitted; under it both creations report success, yet the
final document holds only the second record: the first accepted creation is
lost. -/
theorem C1_intercalacao_perde_atualizacao (chk : SemChecksum → String) (t1 t2 : Tarefa) :
    ∃ d : Dados,
      (execEscalonamento chk t1 t2 [false, true, false, true]).arquivo = some d
      ∧ d.tarefas = [t2.to_dict]
      ∧ (execEscalonamento chk t1 t2 [false, true, false, true]).lado1.res
          = some (.ok ())
      ∧ (execEscalonamento chk t1 t2 [false, true, false, true]).lado2.res
          = some (.ok ()) := by
  refine ⟨?d, ?h1, ?h2, ?h3, ?h4⟩
  case h1 =>
    simp [execEscalonamento, passoExec, passoCriar, RepositorioTarefas.inicial,
          salvar_dados, carregar_dados, verificar_integridade, calcular_checksum,
          dadosSemChecksum]
    exact rfl
  case h2 => rfl
  case h3 =>
    simp [execEscalonamento, passoExec, passoCriar, RepositorioTarefas.inicial,
          salvar_dados, carregar_dados, verificar_integridade, calcular_checksum,
          dadosSemChecksum]
  case h4 =>
    simp [execEscalonamento, passoExec, passoCriar, RepositorioTarefas.inicial,
          salvar_dados, carregar_dados, verificar_integridade, calcular_checksum,
          dadosSemChecksum]

end SCM
